import Mathlib

/-!
Verification of `backend/app/api/routes/webhooks.py`: a FastAPI router with
five stub handlers for the `webhooks` resource.

Modelling conventions:
- Each Python handler becomes a Lean function.  The injected database session
  (`session: SessionDep`) is threaded through as explicit state of an
  arbitrary type `S`; a handler that never touches the session returns it
  unchanged, exactly as the Python body does.
- A handler body that returns normally yields `Except.ok`, and one that
  raises `fastapi.HTTPException(status_code, detail)` yields `Except.error`.
- `httpResponse` / `messageResponse` model how FastAPI turns the handler
  outcome into an HTTP response: a normal return is serialised with the
  default status 200; an `HTTPException` becomes its status code with the
  JSON body `{"detail": <detail>}`.
- `uuid.uuid4()` draws 16 random bytes from the OS; that entropy is made
  explicit as a `Nat` argument.
-/

/-- Field-name and message string constants appearing in the route file. -/
def notFoundDetail : String := "Webhook not found"

def webhooksField : String := "webhooks"

def idField : String := "id"

def createdByField : String := "created_by"

def detailField : String := "detail"

def messageField : String := "message"

/-- A Python `uuid.UUID` value.  Its constructor enforces the invariant
`0 <= int < 1 << 128`, so the value is a 128-bit integer. -/
abbrev UUID := Fin (2 ^ 128)

/-- The authenticated caller (`current_user: CurrentUser` from
`app.api.deps`); this router only ever reads its `id` attribute, a
`uuid.UUID`. -/
structure User where
  id : UUID

/-- `app.models.Message`: the declared success payload of the delete route,
a single string field. -/
structure Message where
  message : String
  deriving DecidableEq

/-- `fastapi.HTTPException(status_code=..., detail=...)`. -/
structure HTTPError where
  status_code : Nat
  detail : String
  deriving DecidableEq

/-- JSON values, as FastAPI serialises handler return values.  Only the
constructors this router can produce are needed. -/
inductive Json where
  | str : String → Json
  | arr : List Json → Json
  | obj : List (String × Json) → Json

/-- Look up a key of a JSON object (first occurrence), `none` otherwise. -/
def Json.field (j : Json) (k : String) : Option Json :=
  match j with
  | Json.obj fields => (fields.find? (fun p => p.1 == k)).map (fun p => p.2)
  | _ => none

/-- Python formatting of one lowercase hexadecimal digit (`'%x'`). -/
def hexChar (n : Nat) : Char :=
  if n < 10 then Char.ofNat (48 + n) else Char.ofNat (87 + n)

/-- Fixed-width big-endian lowercase hexadecimal rendering; on inputs below
`16 ^ width` this is Python's zero-padded `'%0<width>x'` format. -/
def toHex (n width : Nat) : List Char :=
  (List.range width).map (fun i => hexChar (n / 16 ^ (width - 1 - i) % 16))

/-- The character layout of `str(u)` for `u: uuid.UUID`: the `'%032x'`
rendering `h` sliced `[:8]`, `[8:12]`, `[12:16]`, `[16:20]`, `[20:]` with
hyphens in between. -/
def uuidChars (h : List Char) : List Char :=
  h.take 8 ++ '-' :: ((h.drop 8).take 4 ++ '-' ::
    ((h.drop 12).take 4 ++ '-' :: ((h.drop 16).take 4 ++ '-' :: h.drop 20)))

/-- `str(u)` for `u: uuid.UUID`. -/
def uuidToString (u : UUID) : String :=
  String.mk (uuidChars (toHex u.val 32))

/-- The integer built by `uuid.uuid4()`: 16 random bytes interpreted as a
128-bit integer, then the RFC 4122 variant bits and the version-4 bits are
set (`int &= ~(0xc000 << 48); int |= 0x8000 << 48; int &= ~(0xf000 << 64);
int |= 4 << 76`).  Python's `&` with the complement of a mask is, on this
range, `&&&` with `(2 ^ 128 - 1) - mask`. -/
def uuid4Int (randomBytes : Nat) : Nat :=
  let i0 := randomBytes % 2 ^ 128
  let i1 := (i0 &&& ((2 ^ 128 - 1) - (0xc000 <<< 48))) ||| (0x8000 <<< 48)
  (i1 &&& ((2 ^ 128 - 1) - (0xf000 <<< 64))) ||| (4 <<< 76)

/-- `uuid.uuid4()` as a `UUID`, with the entropy explicit; the bound is the
`0 <= int < 1 << 128` invariant the `uuid.UUID` constructor enforces. -/
def uuid4 (randomBytes : Nat) : UUID :=
  ⟨uuid4Int randomBytes, by
    have hc2 : (4 <<< 76 : Nat) < 2 ^ 128 := by
      rw [Nat.shiftLeft_eq]; norm_num
    have hm2 : ((2 ^ 128 - 1) - (0xf000 <<< 64) : Nat) < 2 ^ 128 := by
      rw [Nat.shiftLeft_eq]; norm_num
    show (_ &&& ((2 ^ 128 - 1) - (0xf000 <<< 64))) ||| (4 <<< 76) < 2 ^ 128
    exact Nat.or_lt_two_pow (Nat.and_lt_two_pow _ hm2) hc2⟩

/-- `read_webhooks(session, current_user)`: returns the literal
`{"webhooks": []}`. -/
def read_webhooks {S : Type} (session : S) (current_user : User) :
    (Except HTTPError Json) × S :=
  (Except.ok (Json.obj [(webhooksField, Json.arr [])]), session)

/-- `read_webhook(session, current_user, id)`: unconditionally raises
`HTTPException(status_code=404, detail="Webhook not found")`. -/
def read_webhook {S : Type} (session : S) (current_user : User) (id : UUID) :
    (Except HTTPError Json) × S :=
  (Except.error ⟨404, notFoundDetail⟩, session)

/-- `create_webhook(session, current_user)`: returns
`{"id": str(uuid.uuid4()), "created_by": str(current_user.id)}`.  The
entropy consumed by `uuid.uuid4()` is the extra `randomBytes` argument. -/
def create_webhook {S : Type} (randomBytes : Nat) (session : S)
    (current_user : User) : (Except HTTPError Json) × S :=
  (Except.ok (Json.obj
    [(idField, Json.str (uuidToString (uuid4 randomBytes))),
     (createdByField, Json.str (uuidToString current_user.id))]), session)

/-- `update_webhook(session, current_user, id)`: unconditionally raises
`HTTPException(status_code=404, detail="Webhook not found")`. -/
def update_webhook {S : Type} (session : S) (current_user : User) (id : UUID) :
    (Except HTTPError Json) × S :=
  (Except.error ⟨404, notFoundDetail⟩, session)

/-- `delete_webhook(session, current_user, id)`: declared to return a
`Message` but unconditionally raises
`HTTPException(status_code=404, detail="Webhook not found")`. -/
def delete_webhook {S : Type} (session : S) (current_user : User) (id : UUID) :
    (Except HTTPError Message) × S :=
  (Except.error ⟨404, notFoundDetail⟩, session)

/-- FastAPI response semantics for an `Any`-typed handler: a normal return
is serialised with the default status 200; an `HTTPException` becomes its
status code and the body `{"detail": <detail>}`. -/
def httpResponse : Except HTTPError Json → Nat × Json
  | Except.ok j => (200, j)
  | Except.error e => (e.status_code, Json.obj [(detailField, Json.str e.detail)])

/-- FastAPI response semantics for the `Message`-typed delete handler. -/
def messageResponse : Except HTTPError Message → Nat × Json
  | Except.ok m => (200, Json.obj [(messageField, Json.str m.message)])
  | Except.error e => (e.status_code, Json.obj [(detailField, Json.str e.detail)])

/-- HTTP method of a route decorator. -/
inductive Method where
  | get
  | post
  | put
  | delete
  deriving DecidableEq

/-- One entry of the router: the decorator's method and path (relative to
the router's `/webhooks` prefix), and whether the handler's signature
declares the injected `SessionDep` and `CurrentUser` dependencies. -/
structure Route where
  method : Method
  subpath : String
  requiresSession : Bool
  requiresCurrentUser : Bool
  deriving DecidableEq

def rootPath : String := "/"

def itemPath : String := "/{id}"

/-- The five routes registered on `router = APIRouter(...)`, read off the
decorators and handler signatures in order of definition. -/
def router_routes : List Route :=
  [⟨Method.get, rootPath, true, true⟩,
   ⟨Method.get, itemPath, true, true⟩,
   ⟨Method.post, rootPath, true, true⟩,
   ⟨Method.put, itemPath, true, true⟩,
   ⟨Method.delete, itemPath, true, true⟩]

/-- Lowercase-hex-digit test, the character class produced by `'%x'`. -/
def isHexLower (c : Char) : Bool :=
  (('0' ≤ c) && (c ≤ '9')) || (('a' ≤ c) && (c ≤ 'f'))

/-- Consume exactly `n` lowercase hex digits from the front of a character
list, returning the remainder. -/
def hexRun : Nat → List Char → Option (List Char)
  | 0, rest => some rest
  | _ + 1, [] => none
  | n + 1, c :: rest => if isHexLower c then hexRun n rest else none

/-- Consume a single hyphen. -/
def expectDash : List Char → Option (List Char)
  | '-' :: rest => some rest
  | _ => none

/-- The canonical 8-4-4-4-12 lowercase-hex UUID pattern. -/
def uuidPattern (cs : List Char) : Option (List Char) :=
  hexRun 8 cs >>= expectDash >>= hexRun 4 >>= expectDash >>= hexRun 4 >>=
    expectDash >>= hexRun 4 >>= expectDash >>= hexRun 12

/-- A string is a syntactically valid UUID when it consists of exactly five
hyphen-separated runs of 8, 4, 4, 4 and 12 lowercase hex digits. -/
def isValidUUIDString (s : String) : Bool :=
  uuidPattern s.toList == some []

/-! ### Helper lemmas -/

theorem isHexLower_hexChar (x : Nat) : isHexLower (hexChar (x % 16)) = true := by
  have hlt : x % 16 < 16 := Nat.mod_lt x (by norm_num)
  have hall : ∀ i : Fin 16, isHexLower (hexChar i.val) = true := by decide
  exact hall ⟨x % 16, hlt⟩

theorem mem_toHex (n w : Nat) : ∀ c ∈ toHex n w, isHexLower c = true := by
  intro c hc
  simp only [toHex, List.mem_map] at hc
  obtain ⟨i, _, rfl⟩ := hc
  exact isHexLower_hexChar _

theorem length_toHex (n w : Nat) : (toHex n w).length = w := by
  simp [toHex]

theorem hexRun_append (xs rest : List Char)
    (hall : ∀ c ∈ xs, isHexLower c = true) :
    hexRun xs.length (xs ++ rest) = some rest := by
  induction xs with
  | nil => rfl
  | cons c xs ih =>
    have hc : isHexLower c = true := hall c (List.mem_cons_self c xs)
    simp only [List.length_cons, List.cons_append, hexRun, hc, if_true]
    exact ih (fun d hd => hall d (List.mem_cons_of_mem c hd))

theorem hexRun_of_length (n : Nat) (xs rest : List Char) (hn : xs.length = n)
    (hall : ∀ c ∈ xs, isHexLower c = true) :
    hexRun n (xs ++ rest) = some rest := by
  subst hn
  exact hexRun_append xs rest hall

theorem expectDash_cons (rest : List Char) : expectDash ('-' :: rest) = some rest :=
  rfl

theorem uuidPattern_segments (a b c d e : List Char)
    (ha : a.length = 8) (hb : b.length = 4) (hc : c.length = 4)
    (hd : d.length = 4) (he : e.length = 12)
    (hA : ∀ x ∈ a, isHexLower x = true) (hB : ∀ x ∈ b, isHexLower x = true)
    (hC : ∀ x ∈ c, isHexLower x = true) (hD : ∀ x ∈ d, isHexLower x = true)
    (hE : ∀ x ∈ e, isHexLower x = true) :
    uuidPattern (a ++ '-' :: (b ++ '-' :: (c ++ '-' :: (d ++ '-' :: e)))) = some [] := by
  have h1 := hexRun_of_length 8 a ('-' :: (b ++ '-' :: (c ++ '-' :: (d ++ '-' :: e)))) ha hA
  have h2 := hexRun_of_length 4 b ('-' :: (c ++ '-' :: (d ++ '-' :: e))) hb hB
  have h3 := hexRun_of_length 4 c ('-' :: (d ++ '-' :: e)) hc hC
  have h4 := hexRun_of_length 4 d ('-' :: e) hd hD
  have h5 : hexRun 12 e = some [] := by
    have h := hexRun_of_length 12 e [] he hE
    simpa using h
  simp only [uuidPattern, h1, h2, h3, h4, h5, expectDash_cons, Option.bind_eq_bind,
    Option.some_bind]

theorem uuidPattern_uuidChars (L : List Char) (hlen : L.length = 32)
    (hmem : ∀ c ∈ L, isHexLower c = true) :
    uuidPattern (uuidChars L) = some [] := by
  apply uuidPattern_segments
  · simp [List.length_take, hlen]
  · simp [List.length_take, List.length_drop, hlen]
  · simp [List.length_take, List.length_drop, hlen]
  · simp [List.length_take, List.length_drop, hlen]
  · simp [List.length_drop, hlen]
  · exact fun x hx => hmem x (List.take_subset _ _ hx)
  · exact fun x hx => hmem x (List.drop_subset _ _ (List.take_subset _ _ hx))
  · exact fun x hx => hmem x (List.drop_subset _ _ (List.take_subset _ _ hx))
  · exact fun x hx => hmem x (List.drop_subset _ _ (List.take_subset _ _ hx))
  · exact fun x hx => hmem x (List.drop_subset _ _ hx)

theorem isValidUUIDString_uuidToString (u : UUID) :
    isValidUUIDString (uuidToString u) = true := by
  have h := uuidPattern_uuidChars (toHex u.val 32) (length_toHex _ _) (mem_toHex _ _)
  simp only [isValidUUIDString, uuidToString]
  change (uuidPattern (uuidChars (toHex u.val 32)) == some []) = true
  rw [h]
  rfl

/-! ### Claim theorems -/

/-- C1: for every authenticated caller and every session state, the list
operation (`GET /webhooks/`) returns status 200 with body exactly
`{"webhooks": []}`, the session is unchanged, and the result does not
depend on the caller or the session (it is the same across any two calls,
even over different session types). -/
theorem C1_read_webhooks_constant_empty {S T : Type} (s : S) (t : T)
    (u v : User) :
    httpResponse (read_webhooks s u).1
        = (200, Json.obj [(webhooksField, Json.arr [])]) ∧
      (read_webhooks s u).2 = s ∧
      (read_webhooks s u).1 = (read_webhooks t v).1 :=
  ⟨rfl, rfl, rfl⟩

/-- C2: for every authenticated caller, every session state and every draw
of entropy, the create operation (`POST /webhooks/`) succeeds with status
200, the body's `"id"` field is a syntactically valid UUID string, the
body's `"created_by"` field is the string form of the requesting user's id,
and the session is unchanged (nothing is stored). -/
theorem C2_create_webhook_ok {S : Type} (s : S) (u : User) (r : Nat) :
    (httpResponse (create_webhook r s u).1).1 = 200 ∧
      (∃ sid : String,
        Json.field (httpResponse (create_webhook r s u).1).2 idField
            = some (Json.str sid) ∧
          isValidUUIDString sid = true) ∧
      Json.field (httpResponse (create_webhook r s u).1).2 createdByField
          = some (Json.str (uuidToString u.id)) ∧
      (create_webhook r s u).2 = s := by
  refine ⟨rfl, ⟨uuidToString (uuid4 r), ?_, isValidUUIDString_uuidToString _⟩, ?_, rfl⟩
  · rfl
  · rfl

/-- C3: for every UUID id, every authenticated caller and every session
state, the get-by-id operation (`GET /webhooks/{id}`) fails unconditionally
with HTTP status 404 and body `{"detail": "Webhook not found"}`, and it
never returns a webhook (no `Except.ok` outcome exists). -/
theorem C3_read_webhook_always_404 {S : Type} (s : S) (u : User) (i : UUID) :
    (read_webhook s u i).1 = Except.error ⟨404, notFoundDetail⟩ ∧
      httpResponse (read_webhook s u i).1
          = (404, Json.obj [(detailField, Json.str notFoundDetail)]) ∧
      ∀ j : Json, (read_webhook s u i).1 ≠ Except.ok j :=
  ⟨rfl, rfl, fun _ h => Except.noConfusion h⟩

/-- C4: for every UUID id, every authenticated caller and every session
state, both the update operation (`PUT /webhooks/{id}`) and the delete
operation (`DELETE /webhooks/{id}`) fail unconditionally with HTTP status
404 and detail message `"Webhook not found"`. -/
theorem C4_update_delete_always_404 {S : Type} (s : S) (u : User) (i : UUID) :
    (update_webhook s u i).1 = Except.error ⟨404, notFoundDetail⟩ ∧
      httpResponse (update_webhook s u i).1
          = (404, Json.obj [(detailField, Json.str notFoundDetail)]) ∧
      (delete_webhook s u i).1 = Except.error ⟨404, notFoundDetail⟩ ∧
      messageResponse (delete_webhook s u i).1
          = (404, Json.obj [(detailField, Json.str notFoundDetail)]) :=
  ⟨rfl, rfl, rfl, rfl⟩

/-- C5: across all five operations and for all inputs, the two operations
that can succeed (list, create) never fail, and every failing operation
(get-by-id, update, delete) fails with exactly the one error kind: HTTP 404
with the fixed detail `"Webhook not found"`, independent of input and
state. -/
theorem C5_single_unconditional_error_kind {S : Type} (s : S) (u : User)
    (i : UUID) (r : Nat) :
    (∃ j, (read_webhooks s u).1 = Except.ok j) ∧
      (∃ j, (create_webhook r s u).1 = Except.ok j) ∧
      (read_webhook s u i).1 = Except.error ⟨404, notFoundDetail⟩ ∧
      (update_webhook s u i).1 = Except.error ⟨404, notFoundDetail⟩ ∧
      (delete_webhook s u i).1 = Except.error ⟨404, notFoundDetail⟩ :=
  ⟨⟨_, rfl⟩, ⟨_, rfl⟩, rfl, rfl, rfl⟩

/-- C6: no handler has any observable side effect: each of the five
operations returns its session state unchanged on every input, so repeating
any call leaves the state equally unchanged. -/
theorem C6_handlers_no_side_effect {S : Type} (s : S) (u : User) (i : UUID)
    (r : Nat) :
    (read_webhooks s u).2 = s ∧
      (read_webhook s u i).2 = s ∧
      (create_webhook r s u).2 = s ∧
      (update_webhook s u i).2 = s ∧
      (delete_webhook s u i).2 = s :=
  ⟨rfl, rfl, rfl, rfl, rfl⟩

/-- C7: the router registers exactly five routes, and every one of them
declares both the authenticated caller (`CurrentUser`) and the session
resource (`SessionDep`) as externally supplied dependencies in its handler
signature. -/
theorem C7_all_routes_require_auth_and_session :
    router_routes.length = 5 ∧
      ∀ rt ∈ router_routes,
        rt.requiresSession = true ∧ rt.requiresCurrentUser = true := by
  decide

/-- C8: the create operation has no error branch: for every caller, session
state and entropy it succeeds (and never yields an error), in contrast to
get-by-id, update and delete, each of which always yields an error. -/
theorem C8_create_webhook_never_fails {S : Type} (s : S) (u : User)
    (i : UUID) (r : Nat) :
    (∃ j, (create_webhook r s u).1 = Except.ok j) ∧
      (∀ e, (create_webhook r s u).1 ≠ Except.error e) ∧
      (∃ e, (read_webhook s u i).1 = Except.error e) ∧
      (∃ e, (update_webhook s u i).1 = Except.error e) ∧
      (∃ e, (delete_webhook s u i).1 = Except.error e) :=
  ⟨⟨_, rfl⟩, fun _ h => Except.noConfusion h, ⟨_, rfl⟩, ⟨_, rfl⟩, ⟨_, rfl⟩⟩

/-- C9: get-by-id, update and delete are noninterferent in all of their
inputs: any two calls, over arbitrary (possibly different) session types,
session states, callers and ids, produce the identical outcome, and that
outcome is the fixed 404 error. -/
theorem C9_error_handlers_noninterferent {S T : Type} (s : S) (t : T)
    (u v : User) (i j : UUID) :
    (read_webhook s u i).1 = (read_webhook t v j).1 ∧
      (update_webhook s u i).1 = (update_webhook t v j).1 ∧
      (delete_webhook s u i).1 = (delete_webhook t v j).1 ∧
      (read_webhook s u i).1 = Except.error ⟨404, notFoundDetail⟩ :=
  ⟨rfl, rfl, rfl, rfl⟩

/-- C10: the delete operation's declared success result type `Message` is
never inhabited by an actual return: for every input and every `Message`
value, the handler's outcome is not `Except.ok` of that value. -/
theorem C10_delete_success_unreachable {S : Type} (s : S) (u : User)
    (i : UUID) :
    ∀ m : Message, (delete_webhook s u i).1 ≠ Except.ok m :=
  fun _ h => Except.noConfusion h
